import Mathlib

/-!
Verification of the SRP electronics firmware core (rocket recovery-deployment
controller).  The definitions below are a shallow embedding, translated
directly from the C sources:

  * `crc8`, receive/transmit link framer — `Software/src/lbp.cpp`
  * `parse_packet` — `Software/src/lbp.cpp`
  * buzzer queue — `Software/src/actuators.cpp`
  * flight state machine — `Software/src/state_machine.cpp`

C `uint8_t` values are modelled as `Nat` together with `< 256` hypotheses
where they matter; wrapping increments are written with an explicit `% 256`.
-/

namespace SRP

/-! ## CRC-8 (lbp.cpp, `crc8`) -/

/-- One LFSR round of the CRC-8 with polynomial 0x8C, LSB first:
`if (crc & 1) crc = (crc >> 1) ^ 0x8C; else crc = crc >> 1;`. -/
def crc8_round (crc : Nat) : Nat :=
  if crc % 2 = 1 then (crc / 2) ^^^ 0x8C else crc / 2

/-- Iterate `n` LFSR rounds. -/
def crc8_rounds : Nat → Nat → Nat
  | 0, crc => crc
  | n + 1, crc => crc8_rounds n (crc8_round crc)

/-- Function `crc8(data, crc)` from lbp.cpp: xor the data byte in, then 8 LFSR rounds. -/
def crc8 (data crc : Nat) : Nat :=
  crc8_rounds 8 (crc ^^^ data)

/-- Cumulative CRC of a byte list starting from accumulator `c`
(the way `rx_crc` / `tx_crc` accumulate byte after byte). -/
def crc8_fold (c : Nat) (bs : List Nat) : Nat :=
  bs.foldl (fun acc b => crc8 b acc) c

/-! ## Link-layer constants (lbp.cpp) -/

abbrev CHAR_ESCAPE : Nat := 0x50
abbrev CHAR_START : Nat := 0x55
abbrev CHAR_STOP : Nat := 0x5A

abbrev STATE_IDLE : Nat := 0
abbrev STATE_FRAME : Nat := 1
abbrev STATE_ESCAPING : Nat := 2
abbrev STATE_ENDING : Nat := 3
abbrev STATE_FILLING : Nat := 4

abbrev LBP_BUFFER_SIZE : Nat := 32

/-- Bit-inversion of a byte: C computes `~byte` on a `uint8_t`,
i.e. the complement of the low 8 bits. -/
def inv8 (b : Nat) : Nat := (b % 256) ^^^ 255

/-- Does a byte collide with one of the link-layer delimiters
(`byte == CHAR_STOP || byte == CHAR_START || byte == CHAR_ESCAPE`)? -/
def isSpecial (b : Nat) : Bool :=
  b = CHAR_STOP || b = CHAR_START || b = CHAR_ESCAPE

/-! ## Receive direction (lbp.cpp, `ISR(USART0_RX_vect)`) -/

/-- Receive-side link state: `rx_link_state`, `lbp_rx_buffer` (with
`lbp_rx_buffer_length` as the list length) and `rx_crc`. -/
structure RxState where
  link : Nat
  buffer : List Nat
  crc : Nat
deriving Repr, DecidableEq

/-- A dispatch event: `parse_packet` invoked with the receive buffer
contents and the `data_length` argument (`lbp_rx_buffer_length - 4`). -/
abbrev DispatchEvent := List Nat × Nat

/-- The tail of the RX interrupt: `// this is a valid data bit, add it`.
If the buffer is full the frame is aborted to Idle, otherwise the byte is
appended and folded into the CRC. -/
def rx_push (s : RxState) (byte : Nat) : RxState :=
  if s.buffer.length = LBP_BUFFER_SIZE then
    { s with link := STATE_IDLE }
  else
    { s with buffer := s.buffer ++ [byte], crc := crc8 byte s.crc }

/-- One step of the receive interrupt `ISR(USART0_RX_vect)`, returning the
new state and the dispatch event when a well-formed frame ends. -/
def rx_isr (s : RxState) (byte : Nat) : RxState × Option DispatchEvent :=
  if s.link = STATE_ESCAPING then
    (rx_push { s with link := STATE_FRAME } (inv8 byte), none)
  else if s.link = STATE_FRAME then
    if byte = CHAR_ESCAPE then
      ({ s with link := STATE_ESCAPING }, none)
    else if byte = CHAR_START then
      ({ s with link := STATE_IDLE }, none)
    else if byte = CHAR_STOP then
      ({ s with link := STATE_IDLE },
        if s.crc = 0 ∧ 4 ≤ s.buffer.length then
          some (s.buffer, s.buffer.length - 4)
        else none)
    else
      (rx_push s byte, none)
  else if byte = CHAR_START then
    ({ link := STATE_FRAME, buffer := [], crc := 0 }, none)
  else
    (rx_push s byte, none)

/-- Feed a list of bytes through the receive interrupt, collecting all
dispatch events in order. -/
def rx_run (s : RxState) : List Nat → RxState × List DispatchEvent
  | [] => (s, [])
  | b :: bs =>
    let p := rx_isr s b
    let r := rx_run p.1 bs
    (r.1, p.2.toList ++ r.2)

/-! ## Transmit direction (lbp.cpp, `ISR(USART0_TX_vect)`, `lbp_send_message`) -/

/-- Transmit-side link state: `tx_link_state`, `lbp_tx_buffer` (its first
`length` bytes are the frame to send), `lbp_tx_buffer_length`,
`lbp_tx_buffer_index` and `tx_crc`. -/
structure TxState where
  link : Nat
  buffer : List Nat
  length : Nat
  index : Nat
  crc : Nat
deriving Repr, DecidableEq

/-- One step of the transmit interrupt `ISR(USART0_TX_vect)`: returns the
new state and the byte written to `UDR0` (if any). -/
def tx_isr (s : TxState) : TxState × Option Nat :=
  if s.link = STATE_IDLE ∨ s.link = STATE_FILLING then
    (s, none)
  else if s.link = STATE_ENDING then
    ({ s with link := STATE_IDLE }, some CHAR_STOP)
  else if s.index = s.length then
    if s.link = STATE_ESCAPING then
      ({ s with link := STATE_ENDING }, some (inv8 s.crc))
    else if s.crc = CHAR_STOP ∨ s.crc = CHAR_START ∨ s.crc = CHAR_ESCAPE then
      ({ s with link := STATE_ESCAPING }, some CHAR_ESCAPE)
    else
      ({ s with link := STATE_ENDING }, some s.crc)
  else if s.link = STATE_ESCAPING then
    ({ s with link := STATE_FRAME }, some (inv8 (s.buffer.getD (s.index - 1) 0)))
  else
    let byte := s.buffer.getD s.index 0
    let s' := { s with index := s.index + 1, crc := crc8 byte s.crc }
    if byte = CHAR_STOP ∨ byte = CHAR_START ∨ byte = CHAR_ESCAPE then
      ({ s' with link := STATE_ESCAPING }, some CHAR_ESCAPE)
    else
      (s', some byte)

/-- Iterate the transmit interrupt `fuel` times, collecting emitted bytes. -/
def tx_run (s : TxState) : Nat → List Nat × TxState
  | 0 => ([], s)
  | n + 1 =>
    let p := tx_isr s
    let r := tx_run p.1 n
    (p.2.toList ++ r.1, r.2)

/-- Model of `lbp_send_message(data_length)` called with `frame` being the first
`data_length + 3` bytes of the transmit buffer: resets index and CRC, writes
`CHAR_START` to `UDR0` synchronously and enters the Frame state.  The frame
list passed here is the 3 header bytes followed by the payload. -/
def lbp_send_start (frame : List Nat) : TxState :=
  { link := STATE_FRAME, buffer := frame, length := frame.length,
    index := 0, crc := 0 }

/-- The byte-stuffed encoding of a byte list: delimiter-colliding bytes are
replaced by `CHAR_ESCAPE` followed by the bit-inverted byte. -/
def encodeBytes : List Nat → List Nat
  | [] => []
  | b :: bs =>
    (if isSpecial b then [CHAR_ESCAPE, inv8 b] else [b]) ++ encodeBytes bs

/-- The whole transmit path after `lbp_send_message`: iterate the transmit
interrupt (with ample fuel — once Idle is reached further steps do nothing)
and collect the emitted bytes together with the final transmit state. -/
def tx_transmit (frame : List Nat) : List Nat × TxState :=
  tx_run (lbp_send_start frame) (2 * frame.length + 3)

/-- The full byte stream a transmission puts on the wire: the `CHAR_START`
written synchronously by `lbp_send_message`, then the interrupt-driven
bytes. -/
def wire_stream (frame : List Nat) : List Nat :=
  CHAR_START :: (tx_transmit frame).1

/-! ## Buzzer queue (actuators.cpp) -/

abbrev BUZZER_QUEUE_SIZE : Nat := 8

abbrev BUZZER_OFF : Nat := 0
abbrev BUZZER_ON : Nat := 1
abbrev BUZZER_COOLDOWN : Nat := 2

abbrev BEEP_SHORT : Nat := 12
abbrev BEEP_LONG : Nat := 50

/-- Record `buzzer_queue_type`: `index` is the slot currently being played,
`length` the number of valid entries, `slots` the 8 duration cells
(`queue[i].duration`). -/
structure BuzzerQ where
  index : Nat
  length : Nat
  slots : List Nat
deriving Repr, DecidableEq

/-- Function `buzzer_beep(length)`: appends an entry at `(index + length) % 8` unless
the queue already holds `BUZZER_QUEUE_SIZE` entries (then it silently drops).
`length++` is a `uint8_t` increment, hence the `% 256`. -/
def buzzer_beep (dur : Nat) (q : BuzzerQ) : BuzzerQ :=
  if q.length ≠ BUZZER_QUEUE_SIZE then
    { q with slots := q.slots.set ((q.index + q.length) % BUZZER_QUEUE_SIZE) dur,
             length := (q.length + 1) % 256 }
  else q

/-- Function `buzzer_queue_length()`. -/
def buzzer_queue_length (q : BuzzerQ) : Nat := q.length

/-- Full buzzer sequencer state: the queue plus `buzzer_state`,
`current_beep_duration` and the buzzer output pin. -/
structure BuzzerDev where
  q : BuzzerQ
  phase : Nat
  elapsed : Nat
  pin : Nat
deriving Repr, DecidableEq

/-- Function `buzzer_tick()` from actuators.cpp, invoked once per 20 ms tick.
`current_beep_duration++` and `buzzer_queue.length--` are `uint8_t`
operations, written with explicit mod-256 wrapping. -/
def buzzer_tick (d : BuzzerDev) : BuzzerDev :=
  if d.phase = BUZZER_OFF then
    if d.q.length ≠ 0 then
      { d with phase := BUZZER_ON, elapsed := 0, pin := 1 }
    else d
  else
    let e := (d.elapsed + 1) % 256
    if d.q.slots.getD d.q.index 0 < e then
      if d.phase = BUZZER_ON then
        { d with phase := BUZZER_COOLDOWN, elapsed := 0, pin := 0 }
      else
        let q' : BuzzerQ :=
          { d.q with index := (d.q.index + 1) % BUZZER_QUEUE_SIZE,
                     length := (d.q.length + 255) % 256 }
        if q'.length ≠ 0 then
          { d with q := q', phase := BUZZER_ON, elapsed := 0, pin := 1 }
        else
          { d with q := q', phase := BUZZER_OFF, elapsed := e }
    else
      { d with elapsed := e }

/-- The abstract FIFO contents of the circular buffer: the `length` entries
starting at `index`, oldest first. -/
def qContents (slots : List Nat) (index : Nat) : Nat → List Nat
  | 0 => []
  | n + 1 => slots.getD (index % BUZZER_QUEUE_SIZE) 0 ::
      qContents slots (index + 1) n

/-- Contents of a `BuzzerQ`. -/
def contents (q : BuzzerQ) : List Nat := qContents q.slots q.index q.length

/-- Structural invariant of the buzzer state, true of the boot state and
preserved by every operation: the read index is in range, at most 8 entries
are pending, the backing array has 8 cells, counters are 8-bit, and while a
beep is being played the queue is non-empty. -/
def BuzzInv (d : BuzzerDev) : Prop :=
  d.q.index < 8 ∧ d.q.length ≤ 8 ∧ d.q.slots.length = 8 ∧ d.elapsed < 256 ∧
    (d.phase ≠ BUZZER_OFF → 1 ≤ d.q.length)

instance (d : BuzzerDev) : Decidable (BuzzInv d) := by
  unfold BuzzInv; infer_instance

/-- An interleaving step: a producer `buzzer_beep` call or a consumer tick. -/
inductive BuzzOp where
  | beep (dur : Nat)
  | tick
deriving Repr, DecidableEq

def applyOp (d : BuzzerDev) : BuzzOp → BuzzerDev
  | .beep dur => { d with q := buzzer_beep dur d.q }
  | .tick => buzzer_tick d

def runOps (d : BuzzerDev) : List BuzzOp → BuzzerDev
  | [] => d
  | op :: ops => runOps (applyOp d op) ops

/-! ## Flight state machine (state_machine.cpp) -/

/-- Enumeration `state_type` from state_machine.cpp. -/
inductive StateType where
  | ERROR
  | SYSTEMS_CHECK
  | IDLE
  | PREPARATION
  | ARMED
  | LAUNCHED
  | DEPLOYED
deriving Repr, DecidableEq

/-- The numeric value of each enumerator (the C enum is 0..6). -/
def stateNum : StateType → Nat
  | .ERROR => 0
  | .SYSTEMS_CHECK => 1
  | .IDLE => 2
  | .PREPARATION => 3
  | .ARMED => 4
  | .LAUNCHED => 5
  | .DEPLOYED => 6

/-- Callback `lbp_state_error()`: `flight_state == ERROR` as a 0/1 byte. -/
def lbp_state_error (st : StateType) : Nat :=
  if stateNum st = stateNum .ERROR then 1 else 0

/-- Callback `lbp_state_armed()`: `flight_state >= ARMED` as a 0/1 byte. -/
def lbp_state_armed (st : StateType) : Nat :=
  if stateNum .ARMED ≤ stateNum st then 1 else 0

/-- The status-request reply byte from parse_packet:
`(1 << 4) | (lbp_state_error() ? 2 << 1 : 0) | (lbp_state_armed() ? 1 : 0)`. -/
def status_byte (err armed : Nat) : Nat :=
  (1 <<< 4) ||| (if err ≠ 0 then 2 <<< 1 else 0) ||| (if armed ≠ 0 then 1 else 0)

/-- Sensor readings sampled by one poll of `update_state_machine` (inputs.cpp
collaborators); each `is_*` function returns zero/nonzero, modelled as Bool. -/
structure Env where
  is_armed : Bool
  is_breakwire_connected : Bool
  is_squib_connected : Bool
  is_vote_asserted : Bool
  battery : Nat
deriving Repr, DecidableEq

/-- Device state touched by `update_state_machine`: the flight state, the
buzzer queue, the 20 ms timer (actuators.cpp `timer_20ms`), the actuator
outputs and the EEPROM configuration scalars. -/
structure MachState where
  flight_state : StateType
  buzzer : BuzzerQ
  timer : Nat
  led : Nat
  servoPos : Nat
  pyro : Nat
  launchAsserted : Nat
  min_deploy_time : Nat
  max_deploy_time : Nat
  last_logged_deploy_time : Nat
  battery_empty_limit : Nat
  use_servo : Nat
  servo_closed_position : Nat
  servo_open_position : Nat
deriving Repr, DecidableEq

/-- Function `update_state_machine()` from state_machine.cpp, translated branch by
branch.  `reset_timer()` zeroes `timer`, `set_servo_position` records the
commanded position, `eeprom_write_safe(&last_logged_deploy_time, get_timer())`
records the elapsed time. -/
def update_state_machine (e : Env) (s : MachState) : MachState :=
  match s.flight_state with
  | .ERROR =>
    let s :=
      if buzzer_queue_length s.buzzer = 0 then
        { s with buzzer := buzzer_beep BEEP_LONG s.buzzer }
      else s
    if ¬e.is_armed ∧ s.battery_empty_limit < e.battery ∧
        (s.use_servo ≠ 0 ∨ e.is_squib_connected) then
      { s with buzzer := buzzer_beep BEEP_SHORT (buzzer_beep BEEP_SHORT s.buzzer),
               led := 1, flight_state := .IDLE }
    else s
  | .SYSTEMS_CHECK =>
    let s :=
      if s.use_servo ≠ 0 then { s with servoPos := s.servo_closed_position }
      else s
    if e.battery ≤ s.battery_empty_limit ∨
        (s.use_servo = 0 ∧ ¬e.is_squib_connected) then
      { s with flight_state := .ERROR }
    else
      { s with buzzer := buzzer_beep BEEP_SHORT (buzzer_beep BEEP_SHORT s.buzzer),
               led := 1, flight_state := .IDLE }
  | .IDLE =>
    if e.is_armed then { s with flight_state := .ERROR }
    else if e.is_breakwire_connected then
      { s with buzzer := buzzer_beep BEEP_SHORT (buzzer_beep BEEP_SHORT s.buzzer),
               led := 0, flight_state := .PREPARATION }
    else s
  | .PREPARATION =>
    if ¬e.is_breakwire_connected then
      { s with buzzer := buzzer_beep BEEP_LONG s.buzzer, led := 1,
               flight_state := .IDLE }
    else if e.is_armed then
      if s.use_servo = 0 ∧ ¬e.is_squib_connected then
        { s with flight_state := .ERROR }
      else
        { s with buzzer := buzzer_beep BEEP_SHORT (buzzer_beep BEEP_SHORT s.buzzer),
                 led := 1, flight_state := .ARMED }
    else s
  | .ARMED =>
    if ¬e.is_armed then
      { s with buzzer := buzzer_beep BEEP_LONG s.buzzer, led := 0,
               flight_state := .PREPARATION }
    else if ¬e.is_breakwire_connected then
      { s with timer := 0, launchAsserted := 1, flight_state := .LAUNCHED }
    else s
  | .LAUNCHED =>
    let s :=
      if buzzer_queue_length s.buzzer = 0 then
        { s with buzzer := buzzer_beep BEEP_SHORT s.buzzer }
      else s
    if s.max_deploy_time ≤ s.timer ∨
        (s.min_deploy_time ≤ s.timer ∧ e.is_vote_asserted) then
      let s :=
        if s.use_servo ≠ 0 then { s with servoPos := s.servo_open_position }
        else { s with pyro := 1 }
      { s with last_logged_deploy_time := s.timer, flight_state := .DEPLOYED }
    else s
  | .DEPLOYED =>
    if buzzer_queue_length s.buzzer = 0 then
      { s with buzzer := buzzer_beep BEEP_LONG s.buzzer }
    else s

/-! ## Packet dispatcher (lbp.cpp, `parse_packet`) -/

abbrev LBP_SYNC : Nat := 0x00
abbrev LBP_REPLY : Nat := 0x40
abbrev LBP_ASYNC : Nat := 0x80

abbrev LBP_SOURCE_ADDRESS : Nat := 0x3F

abbrev LBP_NACK : Nat := 0x01
abbrev LBP_IDENTIFY : Nat := 0x02
abbrev LBP_IDENTIFY_ASYNC_REPLY : Nat := 0x03
abbrev LBP_EXTENDED_IDENTIFY : Nat := 0x03
abbrev LBP_NETWORK_DISCOVERY : Nat := 0x04
abbrev LBP_STATUS_REQUEST : Nat := 0x06
abbrev LBP_STATUS_REQUEST_ASYNC_REPLY : Nat := 0x07

abbrev LBP_IDENTIFY_CONTENT_0 : Nat := 0xB0
abbrev LBP_IDENTIFY_CONTENT_1 : Nat := 0x01
abbrev LBP_EXTENDED_IDENTIFY_CONTENT_0 : Nat := 0x0B
abbrev LBP_EXTENDED_IDENTIFY_CONTENT_1 : Nat := 0x00

/-- Constant `LBP_EXTENDED_IDENTIFY_NAME` is the C string "SRP V0.0 " (note the
trailing space): its bytes before the NUL terminator. -/
def lbpName : List Nat := [0x53, 0x52, 0x50, 0x20, 0x56, 0x30, 0x2E, 0x30, 0x20]

/-- Record `lbp_packet`: two info bytes, a command id and the 29 data bytes. -/
structure LbpPacket where
  srcinfo : Nat
  destinfo : Nat
  id : Nat
  data : List Nat
deriving Repr, DecidableEq

/-- Macro `LBP_TYPE(packet)`. -/
def lbpType (p : LbpPacket) : Nat := p.srcinfo &&& 0xC0

/-- Macro `LBP_SRC_ADDR(packet)`. -/
def lbpSrcAddr (p : LbpPacket) : Nat := p.srcinfo &&& 0x3F

/-- Macro `LBP_SEQNUM(packet)`. -/
def lbpSeqNum (p : LbpPacket) : Nat := p.destinfo &&& 0xC0

/-- The state `parse_packet` touches: the receive packet (which the reserved
branches mutate in place), the persistent transmit buffer, whether the
transmit link is Idle (so `lbp_get_tx_buffer` succeeds), and the two flight
state callbacks. -/
structure ParseState where
  rxPkt : LbpPacket
  txPkt : LbpPacket
  txAvail : Bool
  errorFlag : Bool
  armedFlag : Bool
deriving Repr, DecidableEq

/-- What `parse_packet` did: sent the transmit buffer with a data length,
discarded it, handed a synchronous domain command to `lbp_handler`, or could
not acquire the transmit buffer at all. -/
inductive ParseResult where
  | sent (pkt : LbpPacket) (dataLength : Nat)
  | discarded
  | forwarded (rxPkt : LbpPacket) (dataLength : Nat) (reply : LbpPacket)
  | noBuffer
deriving Repr, DecidableEq

/-- The loop `for (temp = 0; NAME[temp]; temp++) reply->data[temp] = NAME[temp];`
copying from position `i`: returns the filled data array and the final value
of `temp`.  `src` is the remaining C string (the name has no interior NUL, so
iterating over its characters is exact). -/
def copyName (i : Nat) (src : List Nat) (data : List Nat) : List Nat × Nat :=
  match src with
  | [] => (data, i)
  | c :: rest => copyName (i + 1) rest (data.set i c)

/-- Function `parse_packet(packet, data_length)` from lbp.cpp.  Note that the reserved
command branches of the C source assign the reply id and type bits to
`packet` (the receive buffer) while only the data bytes go to `reply` (the
transmit buffer); the model reproduces this aliasing exactly.  The
`ParseResult.sent` carries the transmit buffer contents at the moment
`lbp_send_message` is called — that is what is framed onto the wire. -/
def parse_packet (ps : ParseState) (dataLength : Nat) : ParseResult :=
  if ¬ps.txAvail then .noBuffer
  else
    -- lbp_get_tx_buffer(): buffer->srcinfo = LBP_SOURCE_ADDRESS
    let reply := { ps.txPkt with srcinfo := LBP_SOURCE_ADDRESS }
    -- reply->destinfo = LBP_SRC_ADDR(packet) | LBP_SEQNUM(packet)
    let reply := { reply with destinfo := lbpSrcAddr ps.rxPkt ||| lbpSeqNum ps.rxPkt }
    let pkt := ps.rxPkt
    if lbpType pkt = LBP_REPLY then .discarded
    else if pkt.id < 0x10 then
      if pkt.id = LBP_NACK then .discarded
      else if pkt.id = LBP_IDENTIFY then
        let reply := { reply with
          data := ((reply.data.set 0 LBP_IDENTIFY_CONTENT_0).set 1 LBP_IDENTIFY_CONTENT_1) }
        .sent reply 2
      else if pkt.id = LBP_EXTENDED_IDENTIFY then
        if lbpType pkt ≠ LBP_SYNC then .discarded
        else
          let temp := if dataLength < 1 then 0 else pkt.data.getD 0 0
          if 0x10 ≤ temp then .sent reply 0
          else if temp = 0 then
            let reply := { reply with
              data := ((reply.data.set 0 LBP_EXTENDED_IDENTIFY_CONTENT_0).set 1
                LBP_EXTENDED_IDENTIFY_CONTENT_1) }
            .sent reply 2
          else if temp = 1 then
            let r := copyName 0 lbpName reply.data
            .sent { reply with data := r.1 } (r.2 - 1)
          else .sent reply 0
      else if pkt.id = LBP_NETWORK_DISCOVERY then
        if lbpType pkt = LBP_SYNC then .sent reply 0 else .discarded
      else if pkt.id = LBP_STATUS_REQUEST then
        let reply := { reply with
          data := reply.data.set 0 (status_byte (if ps.errorFlag then 1 else 0)
            (if ps.armedFlag then 1 else 0)) }
        .sent reply 1
      else
        if lbpType pkt = LBP_SYNC then .sent reply 0 else .discarded
    else
      if lbpType pkt = LBP_SYNC then
        .forwarded pkt dataLength { reply with srcinfo := reply.srcinfo ||| LBP_REPLY }
      else .discarded

/-- The command-id byte of the frame that actually goes onto the wire for a
`sent` result (byte 2 of the transmit buffer). -/
def sentId : ParseResult → Option Nat
  | .sent p _ => some p.id
  | _ => none

/-- The declared payload length of a `sent` result. -/
def sentLen : ParseResult → Option Nat
  | .sent _ n => some n
  | _ => none

/-- The payload bytes that go onto the wire for a `sent` result: the first
`dataLength` data bytes of the transmit buffer. -/
def sentPayload : ParseResult → Option (List Nat)
  | .sent p n => some (p.data.take n)
  | _ => none




/-! ## Helper lemmas -/

theorem crc8_self (x : Nat) : crc8 x x = 0 := by
  simp [crc8, Nat.xor_self, crc8_rounds, crc8_round]

theorem crc8_fold_append_one (c : Nat) (bs : List Nat) (x : Nat) :
    crc8_fold c (bs ++ [x]) = crc8 x (crc8_fold c bs) := by
  simp [crc8_fold, List.foldl_append]

/-! ## Claim C4 -/

/-- C4: for every byte sequence, if `c` is the cumulative CRC-8 of the
sequence (polynomial 0x8C, LSB first, initial accumulator 0), then running
the same cumulative CRC over the sequence followed by `c` yields exactly 0. -/
theorem c4_crc_appended_self_is_zero (bs : List Nat) (h : ∀ b ∈ bs, b < 256) :
    crc8_fold 0 (bs ++ [crc8_fold 0 bs]) = 0 := by
  rw [crc8_fold_append_one, crc8_self]

/-- Witness for C4 at the concrete sequence `[0x55, 0x01, 0xAB]`. -/
theorem c4_crc_appended_self_is_zero_witness :
    crc8_fold 0 ([0x55, 0x01, 0xAB] ++ [crc8_fold 0 [0x55, 0x01, 0xAB]]) = 0 :=
  c4_crc_appended_self_is_zero [0x55, 0x01, 0xAB] (by decide)

/-! ## Claim C1 -/

/-- C1: in the Launched state, if the timer read by `get_timer()` is at or
above `max_deploy_time`, the poll actuates deployment (servo to the open
position in servo mode, pyro output asserted in pyro mode), writes the
elapsed timer value to `last_logged_deploy_time`, and moves to Deployed,
whatever the deploy-vote input reads. -/
theorem c1_launched_max_time_deploys (e : Env) (s : MachState)
    (h1 : s.flight_state = .LAUNCHED) (h2 : s.max_deploy_time ≤ s.timer) :
    (update_state_machine e s).flight_state = .DEPLOYED ∧
    (update_state_machine e s).last_logged_deploy_time = s.timer ∧
    (s.use_servo ≠ 0 → (update_state_machine e s).servoPos = s.servo_open_position) ∧
    (s.use_servo = 0 → (update_state_machine e s).pyro = 1) := by
  simp only [update_state_machine, h1]
  split_ifs <;> simp_all

/-- Witness for C1: a concrete Launched state with the timer at
`max_deploy_time`, the vote input deasserted, in pyro mode. -/
theorem c1_launched_max_time_deploys_witness :
    (update_state_machine ⟨true, false, true, false, 100⟩
      ⟨.LAUNCHED, ⟨0, 0, List.replicate 8 0⟩, 20, 0, 0, 0, 1, 10, 20, 0, 50, 0, 3, 9⟩).flight_state
        = .DEPLOYED ∧
    (update_state_machine ⟨true, false, true, false, 100⟩
      ⟨.LAUNCHED, ⟨0, 0, List.replicate 8 0⟩, 20, 0, 0, 0, 1, 10, 20, 0, 50, 0, 3, 9⟩).last_logged_deploy_time = 20 := by
  have h := c1_launched_max_time_deploys ⟨true, false, true, false, 100⟩
    ⟨.LAUNCHED, ⟨0, 0, List.replicate 8 0⟩, 20, 0, 0, 0, 1, 10, 20, 0, 50, 0, 3, 9⟩
    (by decide) (by decide)
  exact ⟨h.1, h.2.1⟩

/-! ## Claim C2 -/

/-- C2 counterexample: a poll in the Armed state that observes the breakwire
disconnected but the arming input deasserted goes to Preparation — the
disarm check runs first — leaving the timer and the launch output untouched,
so the claim "whenever a poll observes the breakwire disconnected" is false
as stated. -/
theorem c2_armed_breakwire_counterexample :
    (update_state_machine ⟨false, false, false, false, 100⟩
      ⟨.ARMED, ⟨0, 0, List.replicate 8 0⟩, 5, 0, 0, 0, 0, 10, 20, 0, 50, 1, 3, 9⟩).flight_state
        ≠ .LAUNCHED ∧
    (update_state_machine ⟨false, false, false, false, 100⟩
      ⟨.ARMED, ⟨0, 0, List.replicate 8 0⟩, 5, 0, 0, 0, 0, 10, 20, 0, 50, 1, 3, 9⟩).timer ≠ 0 ∧
    (update_state_machine ⟨false, false, false, false, 100⟩
      ⟨.ARMED, ⟨0, 0, List.replicate 8 0⟩, 5, 0, 0, 0, 0, 10, 20, 0, 50, 1, 3, 9⟩).launchAsserted = 0 := by
  decide

/-- C2 (amended): from Armed, a poll that observes the arming input still
asserted and the breakwire disconnected resets the time base to 0, asserts
the launch-occurred output, and transitions to Launched. -/
theorem c2_armed_breakwire_launches (e : Env) (s : MachState)
    (h1 : s.flight_state = .ARMED) (h2 : e.is_armed = true)
    (h3 : e.is_breakwire_connected = false) :
    (update_state_machine e s).timer = 0 ∧
    (update_state_machine e s).launchAsserted = 1 ∧
    (update_state_machine e s).flight_state = .LAUNCHED := by
  simp [update_state_machine, h1, h2, h3]

/-- Witness for the amended C2 at a concrete armed state. -/
theorem c2_armed_breakwire_launches_witness :
    (update_state_machine ⟨true, false, true, false, 100⟩
      ⟨.ARMED, ⟨0, 0, List.replicate 8 0⟩, 5, 0, 0, 0, 0, 10, 20, 0, 50, 1, 3, 9⟩).timer = 0 ∧
    (update_state_machine ⟨true, false, true, false, 100⟩
      ⟨.ARMED, ⟨0, 0, List.replicate 8 0⟩, 5, 0, 0, 0, 0, 10, 20, 0, 50, 1, 3, 9⟩).launchAsserted = 1 ∧
    (update_state_machine ⟨true, false, true, false, 100⟩
      ⟨.ARMED, ⟨0, 0, List.replicate 8 0⟩, 5, 0, 0, 0, 0, 10, 20, 0, 50, 1, 3, 9⟩).flight_state = .LAUNCHED :=
  c2_armed_breakwire_launches ⟨true, false, true, false, 100⟩
    ⟨.ARMED, ⟨0, 0, List.replicate 8 0⟩, 5, 0, 0, 0, 0, 10, 20, 0, 50, 1, 3, 9⟩
    rfl rfl rfl

/-! ## Buzzer queue lemmas -/

theorem qContents_succ (slots : List Nat) (i n : Nat) :
    qContents slots i (n + 1) =
      slots.getD (i % BUZZER_QUEUE_SIZE) 0 :: qContents slots (i + 1) n := rfl

theorem qContents_mod (slots : List Nat) (i n : Nat) :
    qContents slots (i % BUZZER_QUEUE_SIZE) n = qContents slots i n := by
  induction n generalizing i with
  | zero => rfl
  | succ n ih =>
    rw [qContents_succ, qContents_succ]
    have h1 : i % BUZZER_QUEUE_SIZE % BUZZER_QUEUE_SIZE = i % BUZZER_QUEUE_SIZE := by
      show i % 8 % 8 = i % 8
      omega
    have e1 := ih (i % BUZZER_QUEUE_SIZE + 1)
    have e2 := ih (i + 1)
    have h3 : (i % BUZZER_QUEUE_SIZE + 1) % BUZZER_QUEUE_SIZE
        = (i + 1) % BUZZER_QUEUE_SIZE := by
      show (i % 8 + 1) % 8 = (i + 1) % 8
      omega
    rw [h3] at e1
    rw [h1, e1.symm.trans e2]

theorem getD_set_ne (l : List Nat) (i j v d : Nat) (h : i ≠ j) :
    (l.set i v).getD j d = l.getD j d := by
  induction l generalizing i j with
  | nil => simp
  | cons x xs ih =>
    cases i with
    | zero => cases j with
      | zero => exact absurd rfl h
      | succ j => simp [List.set, List.getD]
    | succ i => cases j with
      | zero => simp [List.set, List.getD]
      | succ j =>
        simp only [List.set, List.getD_cons_succ]
        exact ih i j (fun he => h (by rw [he]))

theorem getD_set_self (l : List Nat) (i v d : Nat) (h : i < l.length) :
    (l.set i v).getD i d = v := by
  induction l generalizing i with
  | nil => simp at h
  | cons x xs ih =>
    cases i with
    | zero => rfl
    | succ i =>
      simp only [List.set, List.getD_cons_succ]
      exact ih i (by simpa using h)

/-- Appending at `(index + length) % 8` extends the FIFO contents at the
back. -/
theorem qContents_append (slots : List Nat) (idx len v : Nat)
    (hslots : slots.length = 8) (hlen : len < 8) :
    qContents (slots.set ((idx + len) % BUZZER_QUEUE_SIZE) v) idx (len + 1) =
      qContents slots idx len ++ [v] := by
  induction len generalizing idx with
  | zero =>
    rw [qContents_succ]
    simp only [qContents, Nat.add_zero, List.nil_append]
    rw [getD_set_self]
    rw [hslots]
    show idx % 8 < 8
    omega
  | succ n ih =>
    rw [qContents_succ]
    conv_rhs => rw [qContents_succ]
    rw [List.cons_append]
    congr 1
    · apply getD_set_ne
      intro he
      have he8 : (idx + (n + 1)) % 8 = idx % 8 := he
      omega
    · have he : idx + (n + 1) = (idx + 1) + n := by omega
      rw [he]
      exact ih (idx + 1) (by omega)

/-- Invariant preservation: both the producer call and the consumer tick
keep `BuzzInv`. -/
theorem buzzInv_applyOp (d : BuzzerDev) (op : BuzzOp) (h : BuzzInv d) :
    BuzzInv (applyOp d op) := by
  obtain ⟨hi, hl, hs, he, hp⟩ := h
  cases op with
  | beep dur =>
    simp only [applyOp, buzzer_beep]
    split_ifs with hfull
    · have hfull8 : d.q.length ≠ 8 := hfull
      refine ⟨hi, ?_, ?_, he, fun _ => ?_⟩
      · show (d.q.length + 1) % 256 ≤ 8
        omega
      · show (d.q.slots.set ((d.q.index + d.q.length) % 8) dur).length = 8
        simp [hs]
      · show 1 ≤ (d.q.length + 1) % 256
        omega
    · exact ⟨hi, hl, hs, he, hp⟩
  | tick =>
    have hp' : ¬d.phase = BUZZER_OFF → 1 ≤ d.q.length := hp
    simp only [applyOp, buzzer_tick]
    split_ifs with h1 h2 h3 h4 h5 <;>
      refine ⟨?_, ?_, ?_, ?_, ?_⟩ <;>
      simp_all [BUZZER_OFF, BUZZER_ON, BUZZER_COOLDOWN, BUZZER_QUEUE_SIZE] <;>
      omega

theorem buzzInv_runOps (d : BuzzerDev) (ops : List BuzzOp) (h : BuzzInv d) :
    BuzzInv (runOps d ops) := by
  induction ops generalizing d with
  | nil => exact h
  | cons op ops ih => exact ih _ (buzzInv_applyOp d op h)

/-- The consumer tick either leaves the FIFO contents unchanged or pops
exactly the front entry. -/
theorem buzzer_tick_fifo (d : BuzzerDev) (h : BuzzInv d) :
    contents (buzzer_tick d).q = contents d.q ∨
    contents (buzzer_tick d).q = (contents d.q).tail := by
  obtain ⟨hi, hl, hs, he, hp⟩ := h
  simp only [buzzer_tick]
  split_ifs with h1 h2 h3 h4 h5
  · exact Or.inl rfl
  · exact Or.inl rfl
  · exact Or.inl rfl
  · -- pop, queue still non-empty
    right
    have hlen : 1 ≤ d.q.length := hp (by simp [h1])
    have hwrap : (d.q.length + 255) % 256 = d.q.length - 1 := by omega
    show qContents d.q.slots ((d.q.index + 1) % BUZZER_QUEUE_SIZE)
        ((d.q.length + 255) % 256) = (qContents d.q.slots d.q.index d.q.length).tail
    rw [hwrap, qContents_mod]
    obtain ⟨n, hn⟩ : ∃ n, d.q.length = n + 1 := ⟨d.q.length - 1, by omega⟩
    rw [hn]
    simp only [Nat.add_sub_cancel, qContents_succ, List.tail_cons]
  · -- pop to empty
    right
    have hlen : 1 ≤ d.q.length := hp (by simp [h1])
    have hwrap : (d.q.length + 255) % 256 = d.q.length - 1 := by omega
    show qContents d.q.slots ((d.q.index + 1) % BUZZER_QUEUE_SIZE)
        ((d.q.length + 255) % 256) = (qContents d.q.slots d.q.index d.q.length).tail
    rw [hwrap, qContents_mod]
    obtain ⟨n, hn⟩ : ∃ n, d.q.length = n + 1 := ⟨d.q.length - 1, by omega⟩
    rw [hn]
    simp only [Nat.add_sub_cancel, qContents_succ, List.tail_cons]
  · exact Or.inl rfl

/-! ## Claim C5 -/

/-- C5: across every interleaving of `buzzer_beep` producer calls and
`buzzer_tick` consumer steps from a well-formed state, the queue count never
exceeds the capacity 8; a `buzzer_beep` issued with the count at 8 leaves
the queue unchanged; an enqueue below capacity appends the new duration at
the back of the FIFO contents; and a tick either leaves the FIFO contents
unchanged or removes exactly the front (oldest) entry — entries are consumed
strictly in FIFO order. -/
theorem c5_buzzer_queue_fifo (d : BuzzerDev) (ops : List BuzzOp) (dur : Nat)
    (h : BuzzInv d) :
    buzzer_queue_length (runOps d ops).q ≤ 8 ∧
    (buzzer_queue_length d.q = 8 → buzzer_beep dur d.q = d.q) ∧
    (buzzer_queue_length d.q < 8 →
      contents (buzzer_beep dur d.q) = contents d.q ++ [dur]) ∧
    (contents (buzzer_tick d).q = contents d.q ∨
      contents (buzzer_tick d).q = (contents d.q).tail) := by
  refine ⟨(buzzInv_runOps d ops h).2.1, ?_, ?_, buzzer_tick_fifo d h⟩
  · intro h8
    simp only [buzzer_queue_length] at h8
    simp [buzzer_beep, h8]
  · intro hlt
    have hslots := h.2.2.1
    have hl8 := h.2.1
    simp only [buzzer_queue_length] at hlt
    simp only [buzzer_beep]
    rw [if_pos (show d.q.length ≠ BUZZER_QUEUE_SIZE from by
      show d.q.length ≠ 8
      omega)]
    show qContents (d.q.slots.set ((d.q.index + d.q.length) % BUZZER_QUEUE_SIZE) dur)
        d.q.index ((d.q.length + 1) % 256) = qContents d.q.slots d.q.index d.q.length ++ [dur]
    have hwrap : (d.q.length + 1) % 256 = d.q.length + 1 := by omega
    rw [hwrap]
    exact qContents_append d.q.slots d.q.index d.q.length dur hslots hlt

/-- Witness for C5: boot state, one enqueue then two ticks. -/
theorem c5_buzzer_queue_fifo_witness :
    buzzer_queue_length (runOps ⟨⟨0, 0, List.replicate 8 0⟩, 0, 0, 0⟩
      [.beep 12, .tick, .tick]).q ≤ 8 ∧
    (contents (buzzer_tick ⟨⟨0, 0, List.replicate 8 0⟩, 0, 0, 0⟩).q =
        contents (⟨0, 0, List.replicate 8 0⟩ : BuzzerQ) ∨
      contents (buzzer_tick ⟨⟨0, 0, List.replicate 8 0⟩, 0, 0, 0⟩).q =
        (contents (⟨0, 0, List.replicate 8 0⟩ : BuzzerQ)).tail) := by
  have h := c5_buzzer_queue_fifo ⟨⟨0, 0, List.replicate 8 0⟩, 0, 0, 0⟩
    [.beep 12, .tick, .tick] 12 (by decide)
  exact ⟨h.1, h.2.2.2⟩

/-! ## Claim C10 -/

/-- C10: `lbp_state_armed()` is nonzero exactly in Armed, Launched and
Deployed, `lbp_state_error()` is nonzero exactly in Error, and hence bit 0
of the status-request reply byte equals the armed flag — it stays set after
launch and after deployment. -/
theorem c10_state_flags : ∀ st : StateType,
    (lbp_state_armed st ≠ 0 ↔ (st = .ARMED ∨ st = .LAUNCHED ∨ st = .DEPLOYED)) ∧
    (lbp_state_error st ≠ 0 ↔ st = .ERROR) ∧
    status_byte (lbp_state_error st) (lbp_state_armed st) % 2 = lbp_state_armed st := by
  intro st
  cases st <;> decide

/-! ## Claim C6 -/

/-- C6: in the Frame state, a STOP with a non-zero running CRC or with
buffer length below 4 returns the link to Idle with no dispatch (hence no
reply); a data byte arriving with the 32-byte buffer already full — directly
in Frame, or as the unescaped byte in Escaping — aborts to Idle with no
dispatch. -/
theorem c6_malformed_frames_dropped (s : RxState) (byte : Nat) :
    (s.link = STATE_FRAME → (s.crc ≠ 0 ∨ s.buffer.length < 4) →
      rx_isr s CHAR_STOP = ({ s with link := STATE_IDLE }, none)) ∧
    (s.link = STATE_FRAME → s.buffer.length = LBP_BUFFER_SIZE →
      byte ≠ CHAR_ESCAPE → byte ≠ CHAR_START → byte ≠ CHAR_STOP →
      rx_isr s byte = ({ s with link := STATE_IDLE }, none)) ∧
    (s.link = STATE_ESCAPING → s.buffer.length = LBP_BUFFER_SIZE →
      rx_isr s byte = ({ s with link := STATE_IDLE }, none)) := by
  refine ⟨fun h1 h2 => ?_, fun h1 h2 h3 h4 h5 => ?_, fun h1 h2 => ?_⟩
  · simp only [rx_isr, h1]
    norm_num [STATE_FRAME, STATE_ESCAPING, CHAR_STOP, CHAR_ESCAPE, CHAR_START]
    rcases h2 with h | h <;> simp [h]
  · simp only [rx_isr, h1, rx_push, h2]
    simp [STATE_FRAME, STATE_ESCAPING, h3, h4, h5]
  · simp only [rx_isr, h1, rx_push, h2]
    simp [STATE_ESCAPING]

/-- Witness for C6: a bad-CRC STOP, a full-buffer data byte in Frame, and a
full-buffer unescaped byte in Escaping, all dropped to Idle. -/
theorem c6_malformed_frames_dropped_witness :
    rx_isr ⟨STATE_FRAME, [1, 2, 3, 4], 7⟩ CHAR_STOP
      = (⟨STATE_IDLE, [1, 2, 3, 4], 7⟩, none) ∧
    rx_isr ⟨STATE_FRAME, List.replicate 32 0, 0⟩ 9
      = (⟨STATE_IDLE, List.replicate 32 0, 0⟩, none) ∧
    rx_isr ⟨STATE_ESCAPING, List.replicate 32 0, 0⟩ 9
      = (⟨STATE_IDLE, List.replicate 32 0, 0⟩, none) :=
  ⟨(c6_malformed_frames_dropped ⟨STATE_FRAME, [1, 2, 3, 4], 7⟩ 9).1 rfl (Or.inl (by decide)),
   (c6_malformed_frames_dropped ⟨STATE_FRAME, List.replicate 32 0, 0⟩ 9).2.1 rfl (by decide)
     (by decide) (by decide) (by decide),
   (c6_malformed_frames_dropped ⟨STATE_ESCAPING, List.replicate 32 0, 0⟩ 9).2.2 rfl (by decide)⟩

/-! ## Claim C8 -/

/-- C8 counterexample: in Idle with an empty receive buffer, the non-START
byte 0x01 is not ignored — it falls through to the append code, so the
buffer and the CRC accumulator change (the claim asserts they are left
unchanged). -/
theorem c8_idle_byte_counterexample :
    (rx_isr ⟨STATE_IDLE, [], 0⟩ 1).1.buffer ≠ ([] : List Nat) ∧
    (rx_isr ⟨STATE_IDLE, [], 0⟩ 1).1.crc ≠ 0 ∧
    (rx_isr ⟨STATE_IDLE, [], 0⟩ 1).1.link = STATE_IDLE := by
  decide

/-- C8 (amended): in Idle, every byte other than START keeps the link state
Idle and never dispatches, but the byte is appended to the receive buffer
and folded into the CRC accumulator when the buffer is not full (a
subsequent START resets both, so framing is unaffected); with a full buffer
the state is left entirely unchanged. -/
theorem c8_idle_byte_appended (s : RxState) (b : Nat)
    (h1 : s.link = STATE_IDLE) (h2 : b ≠ CHAR_START) :
    (rx_isr s b).2 = none ∧ (rx_isr s b).1.link = STATE_IDLE ∧
    (s.buffer.length = LBP_BUFFER_SIZE → (rx_isr s b).1 = s) ∧
    (s.buffer.length ≠ LBP_BUFFER_SIZE →
      (rx_isr s b).1.buffer = s.buffer ++ [b] ∧ (rx_isr s b).1.crc = crc8 b s.crc) := by
  obtain ⟨l, bf, c⟩ := s
  simp only [RxState.link] at h1
  subst h1
  by_cases hfull : bf.length = LBP_BUFFER_SIZE <;>
    simp [rx_isr, rx_push, h2, hfull, STATE_IDLE, STATE_FRAME, STATE_ESCAPING]

/-- Witness for the amended C8 at byte 0x01 on an idle, empty-buffer state. -/
theorem c8_idle_byte_appended_witness :
    (rx_isr ⟨STATE_IDLE, [], 0⟩ 1).2 = none ∧
    (rx_isr ⟨STATE_IDLE, [], 0⟩ 1).1.link = STATE_IDLE := by
  have h := c8_idle_byte_appended ⟨STATE_IDLE, [], 0⟩ 1 rfl (by decide)
  exact ⟨h.1, h.2.1⟩

/-! ## Packet dispatcher lemmas -/

theorem take_set_succ (l : List Nat) (i c : Nat) (h : i < l.length) :
    (l.set i c).take (i + 1) = l.take i ++ [c] := by
  induction l generalizing i with
  | nil => simp at h
  | cons x xs ih =>
    cases i with
    | zero => simp [List.set]
    | succ i =>
      simp only [List.set, List.take_succ_cons]
      rw [ih i (by simpa using h)]
      simp

theorem copyName_spec (src : List Nat) (i : Nat) (data : List Nat)
    (hlen : i + src.length ≤ data.length) :
    (copyName i src data).2 = i + src.length ∧
    (copyName i src data).1.take (i + src.length) = data.take i ++ src ∧
    (copyName i src data).1.length = data.length := by
  induction src generalizing i data with
  | nil => simp [copyName]
  | cons c rest ih =>
    simp only [copyName, List.length_cons]
    have hi : i < data.length := by simp at hlen; omega
    have hlen' : (i + 1) + rest.length ≤ (data.set i c).length := by
      simp; simp at hlen; omega
    obtain ⟨e2, etake, elen⟩ := ih (i + 1) (data.set i c) hlen'
    refine ⟨by rw [e2]; omega, ?_, by rw [elen]; simp⟩
    have hrw : i + (rest.length + 1) = (i + 1) + rest.length := by omega
    rw [hrw, etake, take_set_succ data i c hi]
    simp

/-! ## Claim C9 -/

/-- C9: a synchronous Extended-Identify request for page 1 is answered with
a reply whose payload bytes are characters of the device-name string
"SRP V0.0 " and whose declared payload length is the name's character count
minus one (`lbp_send_message(temp - 1)` after the copy loop leaves
`temp == 9`), so the reply carries the name with its final character
dropped. -/
theorem c9_extended_identify_page1 (ps : ParseState) (n : Nat)
    (h1 : ps.txAvail = true) (h2 : ps.rxPkt.id = LBP_EXTENDED_IDENTIFY)
    (h3 : lbpType ps.rxPkt = LBP_SYNC) (h4 : 1 ≤ n)
    (h5 : ps.rxPkt.data.getD 0 0 = 1) (h6 : ps.txPkt.data.length = 29) :
    sentLen (parse_packet ps n) = some (lbpName.length - 1) ∧
    sentPayload (parse_packet ps n) = some (lbpName.take (lbpName.length - 1)) := by
  have h4' : ¬n < 1 := by omega
  obtain ⟨e2, etake, _⟩ := copyName_spec lbpName 0 ps.txPkt.data (by rw [h6]; decide)
  simp only [parse_packet, h1, h2, h3, h4', h5]
  norm_num [sentLen, sentPayload, e2]
  have etake9 : (copyName 0 lbpName ps.txPkt.data).1.take 9 = lbpName := by
    simpa using etake
  rw [show lbpName.length = 9 from rfl, show (9 : Nat) - 1 = 8 from rfl]
  conv_rhs => rw [← etake9]
  simp [List.take_take]

/-- Witness for C9: a concrete synchronous page-1 Extended-Identify request
against a freshly booted transmit buffer. -/
theorem c9_extended_identify_page1_witness :
    sentLen (parse_packet ⟨⟨0, 0, 3, (List.replicate 29 0).set 0 1⟩,
      ⟨0, 0, 0, List.replicate 29 0⟩, true, false, false⟩ 1) = some (lbpName.length - 1) ∧
    sentPayload (parse_packet ⟨⟨0, 0, 3, (List.replicate 29 0).set 0 1⟩,
      ⟨0, 0, 0, List.replicate 29 0⟩, true, false, false⟩ 1)
      = some (lbpName.take (lbpName.length - 1)) :=
  c9_extended_identify_page1 ⟨⟨0, 0, 3, (List.replicate 29 0).set 0 1⟩,
    ⟨0, 0, 0, List.replicate 29 0⟩, true, false, false⟩ 1
    rfl rfl rfl (by decide) (by decide) (by decide)

/-! ## Claim C7 -/

/-- C7: the reserved-command error paths are meant to answer a synchronous
unknown or malformed reserved request with a Nack reply, but the C code
writes the reply command id to the received packet (`packet->id = LBP_NACK`)
and then transmits the untouched transmit buffer, so the reply that reaches
the wire carries the transmit buffer's stale id byte instead of Nack.  At a
freshly booted device (transmit buffer zero-initialised), a synchronous
request with the unhandled reserved id 0x05 is answered with command id 0x00,
not `LBP_NACK = 0x01`; a malformed synchronous Extended-Identify request
(page 0x10) likewise gets command id 0x00.  The asynchronous halves are
silently discarded as the claim states. -/
theorem c7_reserved_nack_reply_id_stale :
    sentId (parse_packet ⟨⟨0, 0, 5, List.replicate 29 0⟩,
      ⟨0, 0, 0, List.replicate 29 0⟩, true, false, false⟩ 0) = some 0 ∧
    sentId (parse_packet ⟨⟨0, 0, 3, (List.replicate 29 0).set 0 0x10⟩,
      ⟨0, 0, 0, List.replicate 29 0⟩, true, false, false⟩ 1) = some 0 ∧
    (0 : Nat) ≠ LBP_NACK ∧
    parse_packet ⟨⟨0x80, 0, 5, List.replicate 29 0⟩,
      ⟨0, 0, 0, List.replicate 29 0⟩, true, false, false⟩ 0 = .discarded := by
  decide

/-! ## Link framer lemmas -/

theorem xor_lt_256 (x y : Nat) (hx : x < 256) (hy : y < 256) : x ^^^ y < 256 := by
  have h := Nat.xor_lt_two_pow (n := 8) hx hy
  simpa using h

theorem crc8_round_lt (c : Nat) (h : c < 256) : crc8_round c < 256 := by
  unfold crc8_round
  split_ifs
  · exact xor_lt_256 _ _ (by omega) (by omega)
  · omega

theorem crc8_lt (d c : Nat) (hd : d < 256) (hc : c < 256) : crc8 d c < 256 := by
  have h0 : c ^^^ d < 256 := xor_lt_256 c d hc hd
  simp only [crc8, crc8_rounds]
  exact crc8_round_lt _ (crc8_round_lt _ (crc8_round_lt _ (crc8_round_lt _
    (crc8_round_lt _ (crc8_round_lt _ (crc8_round_lt _ (crc8_round_lt _ h0)))))))

theorem crc8_fold_cons (c b : Nat) (bs : List Nat) :
    crc8_fold c (b :: bs) = crc8_fold (crc8 b c) bs := rfl

theorem crc8_fold_lt (bs : List Nat) (c : Nat) (hc : c < 256)
    (hb : ∀ x ∈ bs, x < 256) : crc8_fold c bs < 256 := by
  induction bs generalizing c with
  | nil => exact hc
  | cons b bs ih =>
    rw [crc8_fold_cons]
    exact ih (crc8 b c) (crc8_lt b c (hb b (by simp)) hc)
      (fun x hx => hb x (by simp [hx]))

theorem inv8_lt (b : Nat) : inv8 b < 256 :=
  xor_lt_256 _ _ (Nat.mod_lt _ (by omega)) (by omega)

theorem inv8_inv8 (b : Nat) (h : b < 256) : inv8 (inv8 b) = b := by
  unfold inv8
  rw [Nat.mod_eq_of_lt h, Nat.mod_eq_of_lt (xor_lt_256 b 255 h (by omega))]
  rw [Nat.xor_assoc, Nat.xor_self, Nat.xor_zero]

theorem getD_append_mid (pre : List Nat) (b : Nat) (bs : List Nat) :
    (pre ++ b :: bs).getD pre.length 0 = b := by
  induction pre with
  | nil => rfl
  | cons x xs ih => simpa using ih

theorem encodeBytes_append (as bs : List Nat) :
    encodeBytes (as ++ bs) = encodeBytes as ++ encodeBytes bs := by
  induction as with
  | nil => rfl
  | cons a as ih => simp [encodeBytes, ih]

/-! ### Transmit interrupt step lemmas -/

theorem tx_run_succ (s : TxState) (n : Nat) :
    tx_run s (n + 1) =
      ((tx_isr s).2.toList ++ (tx_run (tx_isr s).1 n).1, (tx_run (tx_isr s).1 n).2) := rfl

theorem tx_run_idle (buf : List Nat) (L idx c n : Nat) :
    tx_run ⟨STATE_IDLE, buf, L, idx, c⟩ n = ([], ⟨STATE_IDLE, buf, L, idx, c⟩) := by
  induction n with
  | zero => rfl
  | succ n ih => rw [tx_run_succ]; simp [tx_isr, ih]

theorem tx_isr_frame_data (buf : List Nat) (L idx c : Nat) (h : ¬idx = L) :
    tx_isr ⟨STATE_FRAME, buf, L, idx, c⟩ =
      if buf.getD idx 0 = CHAR_STOP ∨ buf.getD idx 0 = CHAR_START ∨
          buf.getD idx 0 = CHAR_ESCAPE then
        (⟨STATE_ESCAPING, buf, L, idx + 1, crc8 (buf.getD idx 0) c⟩, some CHAR_ESCAPE)
      else
        (⟨STATE_FRAME, buf, L, idx + 1, crc8 (buf.getD idx 0) c⟩, some (buf.getD idx 0)) := by
  simp [tx_isr, h]

theorem tx_isr_escaping_data (buf : List Nat) (L idx c : Nat) (h : ¬idx = L) :
    tx_isr ⟨STATE_ESCAPING, buf, L, idx, c⟩ =
      (⟨STATE_FRAME, buf, L, idx, c⟩, some (inv8 (buf.getD (idx - 1) 0))) := by
  simp [tx_isr, h]

theorem tx_isr_crc (buf : List Nat) (L c : Nat) :
    tx_isr ⟨STATE_FRAME, buf, L, L, c⟩ =
      if c = CHAR_STOP ∨ c = CHAR_START ∨ c = CHAR_ESCAPE then
        (⟨STATE_ESCAPING, buf, L, L, c⟩, some CHAR_ESCAPE)
      else
        (⟨STATE_ENDING, buf, L, L, c⟩, some c) := by
  simp [tx_isr]

theorem tx_isr_crc_escaped (buf : List Nat) (L c : Nat) :
    tx_isr ⟨STATE_ESCAPING, buf, L, L, c⟩ =
      (⟨STATE_ENDING, buf, L, L, c⟩, some (inv8 c)) := by
  simp [tx_isr]

theorem tx_isr_ending (buf : List Nat) (L idx c : Nat) :
    tx_isr ⟨STATE_ENDING, buf, L, idx, c⟩ =
      (⟨STATE_IDLE, buf, L, idx, c⟩, some CHAR_STOP) := by
  simp [tx_isr]

/-- Characterization of the transmit interrupt chain from the middle of the
data region: provided the final data byte does not need escaping, the chain
emits the byte-stuffed remaining data, then the (possibly escaped) CRC, then
`CHAR_STOP`, and parks in Idle. -/
theorem tx_run_frame : ∀ (bs pre : List Nat) (c k : Nat),
    (∀ x ∈ bs, x < 256) → c < 256 →
    (∀ x, bs.getLast? = some x → isSpecial x = false) →
    tx_run ⟨STATE_FRAME, pre ++ bs, (pre ++ bs).length, pre.length, c⟩
        (2 * bs.length + 3 + k)
      = (encodeBytes bs ++ encodeBytes [crc8_fold c bs] ++ [CHAR_STOP],
         ⟨STATE_IDLE, pre ++ bs, (pre ++ bs).length, (pre ++ bs).length,
           crc8_fold c bs⟩) := by
  intro bs
  induction bs with
  | nil =>
    intro pre c k hb hc hlast
    simp only [List.append_nil, List.length_nil, crc8_fold, List.foldl_nil]
    rw [show 2 * 0 + 3 + k = (k + 2) + 1 from by omega, tx_run_succ, tx_isr_crc]
    by_cases hsp : c = CHAR_STOP ∨ c = CHAR_START ∨ c = CHAR_ESCAPE
    · rw [if_pos hsp]
      simp only
      rw [show k + 2 = (k + 1) + 1 from by omega, tx_run_succ, tx_isr_crc_escaped]
      simp only
      rw [show k + 1 = k + 1 from rfl, tx_run_succ, tx_isr_ending]
      simp [tx_run_idle, encodeBytes, isSpecial, hsp]
      rcases hsp with h | h | h <;> simp [h]
    · rw [if_neg hsp]
      simp only
      rw [show k + 2 = (k + 1) + 1 from by omega, tx_run_succ, tx_isr_ending]
      simp [tx_run_idle, encodeBytes, isSpecial]
      push_neg at hsp
      simp [hsp]
  | cons b bs ih =>
    intro pre c k hb hc hlast
    have hblt : b < 256 := hb b (by simp)
    have hbs : ∀ x ∈ bs, x < 256 := fun x hx => hb x (by simp [hx])
    have hclt : crc8 b c < 256 := crc8_lt b c hblt hc
    have hne : ¬pre.length = (pre ++ b :: bs).length := by simp
    have hgd : (pre ++ b :: bs).getD pre.length 0 = b := getD_append_mid pre b bs
    have hsplit : pre ++ b :: bs = (pre ++ [b]) ++ bs := by simp
    have hlen1 : (pre ++ [b]).length = pre.length + 1 := by simp
    by_cases hsp : b = CHAR_STOP ∨ b = CHAR_START ∨ b = CHAR_ESCAPE
    · -- escaped data byte: b cannot be the last byte
      have hbsne : bs ≠ [] := by
        intro hemp
        subst hemp
        have := hlast b (by simp)
        simp [isSpecial] at this
        rcases hsp with h | h | h <;> simp [h] at this
      rw [show 2 * (b :: bs).length + 3 + k = ((2 * bs.length + 3 + k) + 1) + 1
        from by simp; omega]
      rw [tx_run_succ, tx_isr_frame_data _ _ _ _ hne, hgd, if_pos hsp]
      simp only
      have hne2 : ¬pre.length + 1 = (pre ++ b :: bs).length := by
        have hbl : 0 < bs.length := List.length_pos.mpr hbsne
        rw [List.length_append, List.length_cons]
        omega
      rw [tx_run_succ, tx_isr_escaping_data _ _ _ _ hne2]
      simp only [Nat.add_sub_cancel, hgd]
      have hrec := ih (pre ++ [b]) (crc8 b c) k hbs hclt (fun x hx => by
        apply hlast
        cases bs with
        | nil => simp at hx
        | cons y ys => simpa using hx)
      rw [hlen1] at hrec
      rw [hsplit]
      rw [hrec]
      simp [encodeBytes, isSpecial, hsp, crc8_fold_cons]
      rcases hsp with h | h | h <;> simp [h]
    · rw [show 2 * (b :: bs).length + 3 + k = (2 * bs.length + 3 + (k + 1)) + 1
        from by simp; omega]
      rw [tx_run_succ, tx_isr_frame_data _ _ _ _ hne, hgd, if_neg hsp]
      simp only
      have hrec := ih (pre ++ [b]) (crc8 b c) (k + 1) hbs hclt (fun x hx => by
        apply hlast
        cases bs with
        | nil => simp at hx
        | cons y ys => simpa using hx)
      rw [hlen1] at hrec
      rw [hsplit]
      rw [hrec]
      push_neg at hsp
      simp [encodeBytes, isSpecial, hsp, crc8_fold_cons]

/-! ### Receive interrupt step lemmas -/

theorem rx_run_cons (s : RxState) (b : Nat) (bs : List Nat) :
    rx_run s (b :: bs) =
      ((rx_run (rx_isr s b).1 bs).1,
        (rx_isr s b).2.toList ++ (rx_run (rx_isr s b).1 bs).2) := rfl

theorem rx_run_append (s : RxState) (xs ys : List Nat) :
    rx_run s (xs ++ ys) =
      ((rx_run (rx_run s xs).1 ys).1,
        (rx_run s xs).2 ++ (rx_run (rx_run s xs).1 ys).2) := by
  induction xs generalizing s with
  | nil => rfl
  | cons x xs ih =>
    simp only [List.cons_append, rx_run_cons, ih, List.append_assoc]

theorem rx_isr_idle_start (s : RxState) (h : s.link = STATE_IDLE) :
    rx_isr s CHAR_START = (⟨STATE_FRAME, [], 0⟩, none) := by
  simp [rx_isr, h]

theorem rx_isr_frame_escape (buf : List Nat) (c : Nat) :
    rx_isr ⟨STATE_FRAME, buf, c⟩ CHAR_ESCAPE = (⟨STATE_ESCAPING, buf, c⟩, none) := by
  simp [rx_isr]

theorem rx_isr_frame_data (buf : List Nat) (c b : Nat) (h1 : ¬b = CHAR_ESCAPE)
    (h2 : ¬b = CHAR_START) (h3 : ¬b = CHAR_STOP) (h4 : ¬buf.length = 32) :
    rx_isr ⟨STATE_FRAME, buf, c⟩ b = (⟨STATE_FRAME, buf ++ [b], crc8 b c⟩, none) := by
  simp [rx_isr, rx_push, h1, h2, h3, h4]

theorem rx_isr_escaping (buf : List Nat) (c b : Nat) (h4 : ¬buf.length = 32) :
    rx_isr ⟨STATE_ESCAPING, buf, c⟩ b
      = (⟨STATE_FRAME, buf ++ [inv8 b], crc8 (inv8 b) c⟩, none) := by
  simp [rx_isr, rx_push, h4]

theorem rx_isr_frame_stop_ok (buf : List Nat) (hlen : 4 ≤ buf.length) :
    rx_isr ⟨STATE_FRAME, buf, 0⟩ CHAR_STOP
      = (⟨STATE_IDLE, buf, 0⟩, some (buf, buf.length - 4)) := by
  simp [rx_isr, hlen]

/-- Processing the byte-stuffed encoding of `bs` from the Frame state (with
room in the buffer) appends exactly `bs` to the buffer, folds it into the
CRC, and dispatches nothing. -/
theorem rx_run_frame : ∀ (bs buf : List Nat) (c : Nat),
    (∀ x ∈ bs, x < 256) → buf.length + bs.length ≤ 32 →
    rx_run ⟨STATE_FRAME, buf, c⟩ (encodeBytes bs)
      = (⟨STATE_FRAME, buf ++ bs, crc8_fold c bs⟩, []) := by
  intro bs
  induction bs with
  | nil =>
    intro buf c hb hfit
    simp [encodeBytes, rx_run, crc8_fold]
  | cons b bs ih =>
    intro buf c hb hfit
    have hblt : b < 256 := hb b (by simp)
    have hbs : ∀ x ∈ bs, x < 256 := fun x hx => hb x (by simp [hx])
    rw [List.length_cons] at hfit
    have hfull : ¬buf.length = 32 := by omega
    have hfit' : (buf ++ [b]).length + bs.length ≤ 32 := by
      rw [List.length_append, List.length_cons, List.length_nil]
      omega
    by_cases hsp : isSpecial b
    · rw [show encodeBytes (b :: bs) = CHAR_ESCAPE :: inv8 b :: encodeBytes bs from by
        simp [encodeBytes, hsp]]
      rw [rx_run_cons, rx_isr_frame_escape]
      simp only
      rw [rx_run_cons, rx_isr_escaping _ _ _ hfull, inv8_inv8 b hblt]
      simp only
      rw [ih (buf ++ [b]) (crc8 b c) hbs hfit']
      simp [crc8_fold_cons]
    · have hne : (¬b = CHAR_STOP ∧ ¬b = CHAR_START) ∧ ¬b = CHAR_ESCAPE := by
        simpa [isSpecial] using hsp
      rw [show encodeBytes (b :: bs) = b :: encodeBytes bs from by
        simp [encodeBytes, isSpecial, hne.1.1, hne.1.2, hne.2]]
      rw [rx_run_cons, rx_isr_frame_data _ _ _ hne.2 hne.1.2 hne.1.1 hfull]
      simp only
      rw [ih (buf ++ [b]) (crc8 b c) hbs hfit']
      simp [crc8_fold_cons]

/-! ## Claim C3 -/

/-- C3 counterexample: the claim fails already for the one-byte payload
`[0x55]` (a payload containing a byte equal to START, well inside 0–29
bytes).  The transmit interrupt prioritises the `index == length` check over
the data-escape state, so when the final frame byte needs escaping it emits
the bit-inverted CRC instead of the bit-inverted data byte; the receiver
then sees a CRC mismatch and drops the frame: the dispatcher runs zero
times, not once.  A 29-byte payload also fails: its frame (3 header bytes +
29 payload + 1 CRC byte = 33) overflows the 32-byte receive buffer, which
likewise drops the frame with no dispatch. -/
theorem c3_roundtrip_counterexample :
    ((tx_transmit [0x3F, 0x00, 0x20, 0x55]).2.link = STATE_IDLE ∧
      (rx_run ⟨STATE_IDLE, [], 0⟩ (wire_stream [0x3F, 0x00, 0x20, 0x55])).2 = []) ∧
    ((tx_transmit ([0x3F, 0x00, 0x20] ++ List.replicate 29 0)).2.link = STATE_IDLE ∧
      (rx_run ⟨STATE_IDLE, [], 0⟩
        (wire_stream ([0x3F, 0x00, 0x20] ++ List.replicate 29 0))).2 = []) := by
  set_option maxRecDepth 10000 in decide

/-- C3 (amended): for every payload of 0 to 28 bytes — special bytes
(START/STOP/ESCAPE) allowed anywhere except as the very last byte of the
frame (the last payload byte, or the command-id header byte when the payload
is empty) — transmitting via `lbp_send_message` plus the transmit interrupt
iterated to Idle and feeding the emitted stream into the receive path
dispatches exactly once, with the receive buffer reproducing the original
header and payload exactly and the dispatched payload length equal to the
original payload length. -/
theorem c3_roundtrip (hd0 hd1 hd2 : Nat) (payload : List Nat) (rs : RxState)
    (hb : ∀ x ∈ hd0 :: hd1 :: hd2 :: payload, x < 256)
    (hlen : payload.length ≤ 28)
    (hlast : ∀ x, (hd0 :: hd1 :: hd2 :: payload).getLast? = some x →
      isSpecial x = false)
    (hrs : rs.link = STATE_IDLE) :
    (tx_transmit (hd0 :: hd1 :: hd2 :: payload)).2.link = STATE_IDLE ∧
    (rx_run rs (wire_stream (hd0 :: hd1 :: hd2 :: payload))).2
      = [((hd0 :: hd1 :: hd2 :: payload) ++
            [crc8_fold 0 (hd0 :: hd1 :: hd2 :: payload)], payload.length)] ∧
    ((hd0 :: hd1 :: hd2 :: payload) ++
        [crc8_fold 0 (hd0 :: hd1 :: hd2 :: payload)]).take (3 + payload.length)
      = hd0 :: hd1 :: hd2 :: payload := by
  have htx := tx_run_frame (hd0 :: hd1 :: hd2 :: payload) [] 0 0 hb (by omega) hlast
  simp only [List.nil_append, List.length_nil, Nat.add_zero] at htx
  have htx' : tx_transmit (hd0 :: hd1 :: hd2 :: payload)
      = (encodeBytes (hd0 :: hd1 :: hd2 :: payload) ++
          encodeBytes [crc8_fold 0 (hd0 :: hd1 :: hd2 :: payload)] ++ [CHAR_STOP],
        ⟨STATE_IDLE, hd0 :: hd1 :: hd2 :: payload,
          (hd0 :: hd1 :: hd2 :: payload).length,
          (hd0 :: hd1 :: hd2 :: payload).length,
          crc8_fold 0 (hd0 :: hd1 :: hd2 :: payload)⟩) := htx
  have hcf : crc8_fold 0 (hd0 :: hd1 :: hd2 :: payload) < 256 :=
    crc8_fold_lt _ 0 (by omega) hb
  have hball : ∀ x ∈ (hd0 :: hd1 :: hd2 :: payload) ++
      [crc8_fold 0 (hd0 :: hd1 :: hd2 :: payload)], x < 256 := by
    intro x hx
    rw [List.mem_append] at hx
    rcases hx with hx | hx
    · exact hb x hx
    · simp at hx
      omega
  have hflen : (hd0 :: hd1 :: hd2 :: payload).length = payload.length + 3 := by
    simp
  refine ⟨by rw [htx'], ?_, ?_⟩
  · unfold wire_stream
    rw [htx']
    simp only
    rw [rx_run_cons, rx_isr_idle_start rs hrs]
    simp only
    rw [show encodeBytes (hd0 :: hd1 :: hd2 :: payload) ++
          encodeBytes [crc8_fold 0 (hd0 :: hd1 :: hd2 :: payload)] ++ [CHAR_STOP]
        = encodeBytes ((hd0 :: hd1 :: hd2 :: payload) ++
            [crc8_fold 0 (hd0 :: hd1 :: hd2 :: payload)]) ++ [CHAR_STOP] from by
      rw [encodeBytes_append, List.append_assoc]]
    rw [rx_run_append]
    rw [rx_run_frame ((hd0 :: hd1 :: hd2 :: payload) ++
        [crc8_fold 0 (hd0 :: hd1 :: hd2 :: payload)]) [] 0 hball (by
      rw [List.length_nil, List.length_append, hflen]
      simp
      omega)]
    simp only [List.nil_append]
    rw [show crc8_fold 0 ((hd0 :: hd1 :: hd2 :: payload) ++
        [crc8_fold 0 (hd0 :: hd1 :: hd2 :: payload)]) = 0 from by
      rw [crc8_fold_append_one, crc8_self]]
    rw [rx_run_cons, rx_isr_frame_stop_ok _ (by
      rw [List.length_append, hflen]
      simp)]
    simp only [rx_run]
    rw [show ((hd0 :: hd1 :: hd2 :: payload) ++
        [crc8_fold 0 (hd0 :: hd1 :: hd2 :: payload)]).length - 4 = payload.length from by
      rw [List.length_append, hflen]
      simp]
    rfl
  · rw [show 3 + payload.length = (hd0 :: hd1 :: hd2 :: payload).length from by
      rw [hflen]; omega]
    exact List.take_left _ _

/-- Witness for the amended C3: header `3F 00 20`, three-byte payload
`[0x55, 0x50, 0x07]` containing START and ESCAPE collisions (not in final
position), fed to a fresh receive link. -/
theorem c3_roundtrip_witness :
    (tx_transmit [0x3F, 0x00, 0x20, 0x55, 0x50, 0x07]).2.link = STATE_IDLE ∧
    (rx_run ⟨STATE_IDLE, [], 0⟩ (wire_stream [0x3F, 0x00, 0x20, 0x55, 0x50, 0x07])).2
      = [([0x3F, 0x00, 0x20, 0x55, 0x50, 0x07] ++
          [crc8_fold 0 [0x3F, 0x00, 0x20, 0x55, 0x50, 0x07]], 3)] ∧
    ([0x3F, 0x00, 0x20, 0x55, 0x50, 0x07] ++
        [crc8_fold 0 [0x3F, 0x00, 0x20, 0x55, 0x50, 0x07]]).take (3 + 3)
      = [0x3F, 0x00, 0x20, 0x55, 0x50, 0x07] :=
  c3_roundtrip 0x3F 0x00 0x20 [0x55, 0x50, 0x07] ⟨STATE_IDLE, [], 0⟩
    (by decide) (by decide) (by decide) rfl

end SRP
